import Mathlib

/-!
Shallow embedding of the retrieval-augmented agent pipeline
(`app/core/rag.py`, `app/agents/product_manager.py`, `app/agents/developer.py`,
`app/agents/tester.py`, `app/utils/workspace.py`).

Python strings are modelled as Lean `String` (lists of characters); Python
dicts appearing as *model output* are modelled by the inductive `JVal`
(JSON values); dicts appearing as *typed pipeline context* are modelled as
structures.  Fallible external calls (embedding backend, filesystem writes)
are modelled as explicit oracle parameters returning `Except`/`Option`.
-/

/-- Python-style slice `s[:n]` (character based, clamps at the end). -/
def pySlice (s : String) (n : Nat) : String := String.mk (s.data.take n)

/-- Characters accepted by Python `str.strip()` with no arguments. -/
def isPyWs (c : Char) : Bool :=
  c == ' ' || c == '\t' || c == '\n' || c == '\r' || c == '\x0b' || c == '\x0c'

/-- Python `str.strip()`: drop whitespace from both ends. -/
def pyStrip (s : String) : String :=
  String.mk (((s.data.dropWhile isPyWs).reverse.dropWhile isPyWs).reverse)

/-- Python `str.lower()` (ASCII fragment, which is all the source compares). -/
def pyLower (s : String) : String := String.mk (s.data.map Char.toLower)

/-- Does `pat` occur at the head of `s`? -/
def listStartsWith : List Char → List Char → Bool
  | [], _ => true
  | _ :: _, [] => false
  | p :: ps, c :: cs => p == c && listStartsWith ps cs

/-- Does `pat` occur anywhere in `hay` (helper on character lists)? -/
def containsFrom (pat : List Char) : List Char → Bool
  | [] => listStartsWith pat []
  | c :: cs => listStartsWith pat (c :: cs) || containsFrom pat cs

/-- Python `pat in hay` substring test. -/
def strContains (hay pat : String) : Bool := containsFrom pat.data hay.data

/-- Python `s.endswith(pat)`. -/
def pyEndsWith (s pat : String) : Bool :=
  listStartsWith pat.data.reverse s.data.reverse

/-- One step of Python `str.replace` on character lists, fuelled by the
length of the subject string. -/
def replListF : Nat → List Char → List Char → List Char → List Char
  | 0, _, _, cs => cs
  | _ + 1, _, _, [] => []
  | fuel + 1, pat, rep, c :: rest =>
      if listStartsWith pat (c :: rest) then
        rep ++ replListF fuel pat rep ((c :: rest).drop pat.length)
      else
        c :: replListF fuel pat rep rest

/-- Python `s.replace(pat, rep)` (all non-overlapping occurrences, left to
right; the source never calls it with an empty pattern). -/
def pyReplace (s pat rep : String) : String :=
  if pat.data.isEmpty then s
  else String.mk (replListF (s.data.length + 1) pat.data rep.data s.data)

/-- Python `str.title()` on the ASCII fragment: a letter is upper-cased when
the previous character was not a letter, lower-cased otherwise. -/
def pyTitleGo : Bool → List Char → List Char
  | _, [] => []
  | prevCased, c :: cs =>
      if c.isAlpha then
        (if prevCased then c.toLower else c.toUpper) :: pyTitleGo true cs
      else
        c :: pyTitleGo false cs

/-- Python `s.title()`. -/
def pyTitle (s : String) : String := String.mk (pyTitleGo false s.data)

/-- Split a character list on a separator character (Python `str.split(sep)`
semantics: preserves empty fields). -/
def splitOnChar (sep : Char) : List Char → List (List Char)
  | [] => [[]]
  | x :: rest =>
      let r := splitOnChar sep rest
      if x == sep then [] :: r
      else
        match r with
        | h :: t => (x :: h) :: t
        | [] => [[x]]

/-- Split a path string on the slash separator. -/
def splitSlash (s : String) : List String :=
  (splitOnChar '/' s.data).map String.mk

/-- Index of the last occurrence of `c` (Python `str.rfind`), if any. -/
def rfindIdx (c : Char) : List Char → Option Nat
  | [] => none
  | x :: rest =>
      match rfindIdx c rest with
      | some i => some (i + 1)
      | none => if x == c then some 0 else none

/-- `pathlib.PurePath.suffix`: the extension of the last path component,
including the dot; empty when the name starts or ends with the dot. -/
def pySuffix (p : String) : String :=
  let name := (splitSlash p).getLastD ""
  match rfindIdx '.' name.data with
  | some i => if 0 < i ∧ i < name.data.length - 1 then String.mk (name.data.drop i) else ""
  | none => ""

/-- JSON values as produced by `json.loads` (numbers kept as their source
token, since the code never inspects numeric values). -/
inductive JVal where
  | jnull : JVal
  | jbool : Bool → JVal
  | jnum : String → JVal
  | jstr : String → JVal
  | jarr : List JVal → JVal
  | jobj : List (String × JVal) → JVal
deriving Repr

/-- Dict lookup over the parsed field list; later duplicate keys win, as in
a Python dict built by `json.loads`. -/
def jlookup (fields : List (String × JVal)) (k : String) : Option JVal :=
  fields.foldl (fun acc p => if p.1 == k then some p.2 else acc) none

/-- JSON insignificant whitespace. -/
def isJsonWs (c : Char) : Bool :=
  c == ' ' || c == '\t' || c == '\n' || c == '\r'

/-- Skip JSON whitespace. -/
def skipWs (cs : List Char) : List Char := cs.dropWhile isJsonWs

/-- Hex digit value, if the character is one. -/
def hexVal (c : Char) : Option Nat :=
  if '0' ≤ c ∧ c ≤ '9' then some (c.toNat - '0'.toNat)
  else if 'a' ≤ c ∧ c ≤ 'f' then some (c.toNat - 'a'.toNat + 10)
  else if 'A' ≤ c ∧ c ≤ 'F' then some (c.toNat - 'A'.toNat + 10)
  else none

/-- Body of a JSON string literal after the opening quote: returns the
decoded characters and the remainder after the closing quote.  Mirrors the
strict mode of `json.loads` (control characters and bad escapes fail). -/
def jsonStrBody : List Char → Option (List Char × List Char)
  | [] => none
  | '"' :: rest => some ([], rest)
  | '\\' :: 'u' :: a :: b :: c :: d :: rest => do
      let va ← hexVal a
      let vb ← hexVal b
      let vc ← hexVal c
      let vd ← hexVal d
      let code := ((va * 16 + vb) * 16 + vc) * 16 + vd
      let ch := Char.ofNat code
      let (tail, rem) ← jsonStrBody rest
      pure (ch :: tail, rem)
  | '\\' :: e :: rest => do
      let ch ←
        if e == '"' then some '"'
        else if e == '\\' then some '\\'
        else if e == '/' then some '/'
        else if e == 'b' then some '\x08'
        else if e == 'f' then some '\x0c'
        else if e == 'n' then some '\n'
        else if e == 'r' then some '\r'
        else if e == 't' then some '\t'
        else none
      let (tail, rem) ← jsonStrBody rest
      pure (ch :: tail, rem)
  | c :: rest =>
      if c.toNat < 32 then none
      else do
        let (tail, rem) ← jsonStrBody rest
        pure (c :: tail, rem)

/-- Digit test. -/
def isDigitCh (c : Char) : Bool := '0' ≤ c && c ≤ '9'

/-- Parse the integer digits of a JSON number (no leading zeros except a
lone zero). -/
def jsonIntDigits : List Char → Option (List Char × List Char)
  | '0' :: rest => some (['0'], rest)
  | c :: rest =>
      if isDigitCh c then
        some (c :: rest.takeWhile isDigitCh, rest.dropWhile isDigitCh)
      else none
  | [] => none

/-- Parse a JSON number token starting at the head; returns the raw token.
Parts that fail to scan are left unconsumed, so that the enclosing parse
fails at the next structural token exactly where `json.loads` raises. -/
def jsonNumTok (cs : List Char) : Option (List Char × List Char) := do
  let (sign, cs1) :=
    match cs with
    | '-' :: rest => (['-'], rest)
    | _ => ([], cs)
  let (ip, cs2) ← jsonIntDigits cs1
  let (fp, cs3) :=
    match cs2 with
    | '.' :: d :: rest =>
        if isDigitCh d then ('.' :: d :: rest.takeWhile isDigitCh, rest.dropWhile isDigitCh)
        else ([], cs2)
    | _ => ([], cs2)
  let (ep, cs4) :=
    match cs3 with
    | e :: rest =>
        if e == 'e' || e == 'E' then
          match rest with
          | s :: rest1 =>
              if s == '+' || s == '-' then
                if (rest1.takeWhile isDigitCh).isEmpty then ([], cs3)
                else (e :: s :: rest1.takeWhile isDigitCh, rest1.dropWhile isDigitCh)
              else if isDigitCh s then
                (e :: (s :: rest1).takeWhile isDigitCh, (s :: rest1).dropWhile isDigitCh)
              else ([], cs3)
          | [] => ([], cs3)
        else ([], cs3)
    | [] => ([], cs3)
  pure (sign ++ ip ++ fp ++ ep, cs4)

mutual

/-- Fuelled recursive-descent parser mirroring `json.loads` on the subset
the code can ever feed it. -/
def parseVal : Nat → List Char → Option (JVal × List Char)
  | 0, _ => none
  | fuel + 1, cs =>
      let cs := skipWs cs
      match cs with
      | '{' :: rest =>
          match skipWs rest with
          | '}' :: rem => some (.jobj [], rem)
          | rest2 => do
              let (fs, rem) ← parseObjItems fuel rest2
              pure (.jobj fs, rem)
      | '[' :: rest =>
          match skipWs rest with
          | ']' :: rem => some (.jarr [], rem)
          | rest2 => do
              let (xs, rem) ← parseArrItems fuel rest2
              pure (.jarr xs, rem)
      | '"' :: rest => do
          let (body, rem) ← jsonStrBody rest
          pure (.jstr (String.mk body), rem)
      | 't' :: 'r' :: 'u' :: 'e' :: rest => some (.jbool true, rest)
      | 'f' :: 'a' :: 'l' :: 's' :: 'e' :: rest => some (.jbool false, rest)
      | 'n' :: 'u' :: 'l' :: 'l' :: rest => some (.jnull, rest)
      | 'N' :: 'a' :: 'N' :: rest => some (.jnum "NaN", rest)
      | 'I' :: 'n' :: 'f' :: 'i' :: 'n' :: 'i' :: 't' :: 'y' :: rest => some (.jnum "Infinity", rest)
      | '-' :: 'I' :: 'n' :: 'f' :: 'i' :: 'n' :: 'i' :: 't' :: 'y' :: rest => some (.jnum "-Infinity", rest)
      | _ => do
          let (tok, rem) ← jsonNumTok cs
          pure (.jnum (String.mk tok), rem)

/-- Parse the members of a JSON object after at least one member is known
to be present. -/
def parseObjItems : Nat → List Char → Option (List (String × JVal) × List Char)
  | 0, _ => none
  | fuel + 1, cs =>
      match skipWs cs with
      | '"' :: rest => do
          let (key, rem) ← jsonStrBody rest
          match skipWs rem with
          | ':' :: rem2 => do
              let (v, rem3) ← parseVal fuel rem2
              match skipWs rem3 with
              | ',' :: rem4 => do
                  let (fs, rem5) ← parseObjItems fuel rem4
                  pure ((String.mk key, v) :: fs, rem5)
              | '}' :: rem4 => pure ([(String.mk key, v)], rem4)
              | _ => none
          | _ => none
      | _ => none

/-- Parse the items of a JSON array after at least one item is known to be
present. -/
def parseArrItems : Nat → List Char → Option (List JVal × List Char)
  | 0, _ => none
  | fuel + 1, cs => do
      let (v, rem) ← parseVal fuel cs
      match skipWs rem with
      | ',' :: rem2 => do
          let (xs, rem3) ← parseArrItems fuel rem2
          pure (v :: xs, rem3)
      | ']' :: rem2 => pure ([v], rem2)
      | _ => none

end

/-- Python `json.loads`: parse a complete document, requiring only
whitespace after the value; `none` models a raised `JSONDecodeError`. -/
def pyJsonLoads (s : String) : Option JVal :=
  match parseVal (2 * s.data.length + 2) s.data with
  | some (v, rest) => if (skipWs rest).isEmpty then some v else none
  | none => none

example : pyJsonLoads "\x7b\x7d" = some (.jobj []) := by rfl
example : pyJsonLoads "\x7bbad\x7d" = none := by rfl
example : pyJsonLoads " \x7b\"a\": [1, true, \"x\"]\x7d " =
    some (.jobj [("a", .jarr [.jnum "1", .jbool true, .jstr "x"])]) := by rfl
example : pyJsonLoads "\x7b\"a\": 1\x7d trailing" = none := by rfl
example : pyJsonLoads "" = none := by rfl

/-- Prefix of `cs` up to and including the last occurrence of `c`;
`none` when `c` does not occur. -/
def takeUpToLast (c : Char) : List Char → Option (List Char)
  | [] => none
  | x :: rest =>
      match takeUpToLast c rest with
      | some t => some (x :: t)
      | none => if x == c then some [x] else none

/-- Greedy DOTALL search for the pattern brace-dot-star-brace, as run by
all three parsers: the span from the first opening brace to the last
closing brace that follows it, `none` when there is no such span.  (If the
first opening brace has no closing brace after it, no later opening brace
can have one either, so returning `none` at the first opening brace agrees
with the regex engine trying every start position.) -/
def braceExtractGo : List Char → Option String
  | [] => none
  | c :: rest =>
      if c == '{' then (takeUpToLast '}' rest).map (fun t => String.mk ('{' :: t))
      else braceExtractGo rest

/-- The strict-extraction step shared by the three parsers. -/
def braceExtract (s : String) : Option String := braceExtractGo s.data

example : braceExtract "ab\x7bx\x7dcd\x7dz" = some "\x7bx\x7dcd\x7d" := by rfl
example : braceExtract "no braces" = none := by rfl
example : braceExtract "\x7dol\x7b" = none := by rfl

/-- Python regex word character (ASCII fragment). -/
def isWordChar (c : Char) : Bool := c.isAlphanum || c == '_'

/-- Find the earliest occurrence of newline-tick-tick-tick; returns the
body before it and the remainder after it. -/
def findCloseFence : List Char → Option (List Char × List Char)
  | [] => none
  | c :: rest =>
      if listStartsWith ['\n', '`', '`', '`'] (c :: rest) then
        some ([], (c :: rest).drop 4)
      else
        match findCloseFence rest with
        | some (body, rem) => some (c :: body, rem)
        | none => none

/-- Try to match one fenced code region at the head of the input, following
the regex tick-tick-tick, optional word-character language tag, newline,
lazy body, newline-tick-tick-tick.  The language run is maximal (a shorter
run would have to be followed by a word character, never a newline). -/
def matchFenceAt (cs : List Char) : Option ((String × String) × List Char) :=
  if listStartsWith ['`', '`', '`'] cs then
    let afterTicks := cs.drop 3
    let lang := afterTicks.takeWhile isWordChar
    match afterTicks.dropWhile isWordChar with
    | '\n' :: body0 =>
        match findCloseFence body0 with
        | some (body, rem) => some ((String.mk lang, String.mk body), rem)
        | none => none
    | _ => none
  else none

/-- Left-to-right non-overlapping scan for fenced code regions
(`re.findall` over the fence pattern): on a failed match the scan advances
one character, on a successful match it resumes after the match. -/
def scanFences : Nat → List Char → List (String × String)
  | 0, _ => []
  | _ + 1, [] => []
  | fuel + 1, c :: rest =>
      match matchFenceAt (c :: rest) with
      | some (p, rem) => p :: scanFences fuel rem
      | none => scanFences fuel rest

/-- All fenced code regions of a raw response, as (language tag, body)
pairs; the tag is empty when absent, as `re.findall` reports an unmatched
optional group. -/
def findCodeBlocks (s : String) : List (String × String) :=
  scanFences s.data.length s.data

example : findCodeBlocks "```python\nx = 1\n```" = [("python", "x = 1")] := by rfl
example : findCodeBlocks "a\n```\nbody\ntext\n```\nb ```js\nz\n```" =
    [("", "body\ntext"), ("js", "z")] := by rfl
example : findCodeBlocks "```python\nno close" = [] := by rfl

/-- The language-to-extension table at the end of
`DeveloperAgent._guess_filename`, with its plain-text default. -/
def extTable (lang : String) : String :=
  if lang == "python" then "py"
  else if lang == "bash" then "sh"
  else if lang == "shell" then "sh"
  else if lang == "javascript" then "js"
  else if lang == "js" then "js"
  else "txt"

/-- `DeveloperAgent._guess_filename`: first-match heuristic over marker
substrings of the lower-cased body, then over the language tag. -/
def guessFilename (code lang : String) (index : Nat) : String :=
  let codeLower := pyLower code
  if strContains codeLower "def main(" || strContains codeLower "if __name__" then
    "main.py"
  else if strContains codeLower "class " && strContains codeLower "test" then
    s!"test_{index}.py"
  else if strContains codeLower "fastapi" || strContains codeLower "app = " then
    "app.py"
  else if strContains codeLower "import unittest" || strContains codeLower "import pytest" then
    s!"test_{index}.py"
  else if lang == "python" || strContains codeLower "import " then
    s!"module_{index}.py"
  else if lang == "bash" || strContains lang "sh" then
    s!"script_{index}.sh"
  else if lang == "javascript" || lang == "js" then
    s!"script_{index}.js"
  else
    s!"file_{index}.{extTable lang}"

example : guessFilename "if __name__ == \"__main__\":\n    run()" "python" 2 = "main.py" := by rfl
example : guessFilename "import unittest" "" 1 = "test_1.py" := by rfl
example : guessFilename "puts 1" "ruby" 0 = "file_0.txt" := by rfl

/-- A single-quote string (built from its code point to keep the source
free of bare quote characters). -/
def squote : String := String.singleton (Char.ofNat 39)

/-- Python `repr` of a list of strings, as interpolated by f-strings in the
Tester prompt (escaping inside the items is not modelled; the items the
pipeline passes never need it). -/
def pyReprStrList (xs : List String) : String :=
  "[" ++ String.intercalate ", " (xs.map (fun s => squote ++ s ++ squote)) ++ "]"

/-- Four-digit uppercase hex of a code point below 0x10000. -/
def hex4 (n : Nat) : String :=
  let dig := fun (k : Nat) =>
    if k < 10 then Char.ofNat ('0'.toNat + k) else Char.ofNat ('a'.toNat + k - 10)
  String.mk [dig (n / 4096 % 16), dig (n / 256 % 16), dig (n / 16 % 16), dig (n % 16)]

/-- Escape one character the way `json.dumps` (ensure_ascii) does. -/
def jsonEscapeChar (c : Char) : String :=
  if c == '"' then "\\\""
  else if c == '\\' then "\\\\"
  else if c == '\n' then "\\n"
  else if c == '\r' then "\\r"
  else if c == '\t' then "\\t"
  else if c == '\x08' then "\\b"
  else if c == '\x0c' then "\\f"
  else if c.toNat < 32 ∨ 127 ≤ c.toNat then "\\u" ++ hex4 (c.toNat % 65536)
  else String.singleton c

/-- `json.dumps` rendering of a string literal. -/
def jsonQuote (s : String) : String :=
  "\"" ++ String.join (s.data.map jsonEscapeChar) ++ "\""

/-- Indentation at nesting depth `n` for `json.dumps(..., indent=2)`. -/
def jsonPad (n : Nat) : String := String.mk (List.replicate (2 * n) ' ')

mutual

/-- `json.dumps(v, indent=2)` at nesting depth `ind`. -/
def dumpsVal : JVal → Nat → String
  | .jnull, _ => "null"
  | .jbool b, _ => if b then "true" else "false"
  | .jnum s, _ => s
  | .jstr s, _ => jsonQuote s
  | .jarr [], _ => "[]"
  | .jarr (x :: xs), ind =>
      "[\n" ++ dumpsItems (x :: xs) (ind + 1) ++ "\n" ++ jsonPad ind ++ "]"
  | .jobj [], _ => "\x7b\x7d"
  | .jobj (f :: fs), ind =>
      "\x7b\n" ++ dumpsFields (f :: fs) (ind + 1) ++ "\n" ++ jsonPad ind ++ "\x7d"

/-- Comma-and-newline separated array items, each on its own indented line. -/
def dumpsItems : List JVal → Nat → String
  | [], _ => ""
  | [x], ind => jsonPad ind ++ dumpsVal x ind
  | x :: y :: rest, ind =>
      jsonPad ind ++ dumpsVal x ind ++ ",\n" ++ dumpsItems (y :: rest) ind

/-- Comma-and-newline separated object members. -/
def dumpsFields : List (String × JVal) → Nat → String
  | [], _ => ""
  | [(k, v)], ind => jsonPad ind ++ jsonQuote k ++ ": " ++ dumpsVal v ind
  | (k, v) :: g :: rest, ind =>
      jsonPad ind ++ jsonQuote k ++ ": " ++ dumpsVal v ind ++ ",\n" ++ dumpsFields (g :: rest) ind

end

/-- `json.dumps(v, indent=2)` as called by the prompt builders. -/
def jsonDumps (v : JVal) : String := dumpsVal v 0

/-- Field accessor combined with a shape test. -/
def jfieldIs (fields : List (String × JVal)) (k : String) (p : JVal → Bool) : Bool :=
  match jlookup fields k with
  | some v => p v
  | none => false

/-- Shape test: a JSON string. -/
def isStr : JVal → Bool
  | .jstr _ => true
  | _ => false

/-- Shape test: a JSON array of strings. -/
def isStrArr : JVal → Bool
  | .jarr xs => xs.all isStr
  | _ => false

/-- One entry of the Product Manager specification list. -/
def pmSpecItemValid : JVal → Bool
  | .jobj f =>
      jfieldIs f "component" isStr && jfieldIs f "description" isStr &&
      jfieldIs f "requirements" isStrArr && jfieldIs f "acceptance_criteria" isStrArr
  | _ => false

/-- Minimal structural schema of the Product Manager payload (the
specification-list schema its system prompt declares). -/
def pmSchemaValid : JVal → Bool
  | .jobj f =>
      jfieldIs f "analysis" isStr &&
      jfieldIs f "specifications" (fun v =>
        match v with
        | .jarr xs => xs.all pmSpecItemValid
        | _ => false) &&
      jfieldIs f "technical_considerations" isStrArr &&
      jfieldIs f "success_metrics" isStrArr
  | _ => false

/-- One file artifact: path, content and description strings. -/
def fileItemValid : JVal → Bool
  | .jobj f =>
      jfieldIs f "path" isStr && jfieldIs f "content" isStr && jfieldIs f "description" isStr
  | _ => false

/-- Minimal structural schema of the Developer payload
(files/dependencies/setup_commands schema). -/
def devSchemaValid : JVal → Bool
  | .jobj f =>
      jfieldIs f "implementation_plan" isStr &&
      jfieldIs f "files" (fun v =>
        match v with
        | .jarr xs => xs.all fileItemValid
        | _ => false) &&
      jfieldIs f "dependencies" isStrArr &&
      jfieldIs f "setup_commands" isStrArr &&
      jfieldIs f "notes" isStr
  | _ => false

/-- One entry of the Tester issue list. -/
def issueItemValid : JVal → Bool
  | .jobj f =>
      jfieldIs f "severity" isStr && jfieldIs f "file" isStr &&
      jfieldIs f "issue" isStr && jfieldIs f "suggestion" isStr
  | _ => false

/-- Minimal structural schema of the Tester payload
(issues/test_files/quality_score schema). -/
def testSchemaValid : JVal → Bool
  | .jobj f =>
      jfieldIs f "review_summary" isStr &&
      jfieldIs f "issues_found" (fun v =>
        match v with
        | .jarr xs => xs.all issueItemValid
        | _ => false) &&
      jfieldIs f "test_files" (fun v =>
        match v with
        | .jarr xs => xs.all fileItemValid
        | _ => false) &&
      jfieldIs f "recommendations" isStrArr &&
      jfieldIs f "quality_score" isStr &&
      jfieldIs f "requirements_coverage" isStr
  | _ => false

/-- One retrieved passage as placed into agent context (`rag_context`):
the text plus its `metadata.source` when present. -/
structure RagDoc where
  content : String
  source : Option String
deriving Repr

/-- One generated file as threaded from the Developer stage into the
Tester context (entries of `code.files`). -/
structure DevFile where
  path : String
  content : String
  description : Option String
deriving Repr

/-- The `code` sub-structure of the Tester context
(`context.get("code", {})` with its four accessed fields). -/
structure TestCode where
  files : List DevFile
  dependencies : List String
  setupCommands : List String
  notes : Option String
deriving Repr

/-- Context read by `ProductManagerAgent` (optional keys model
`context.get` with a default). -/
structure PMContext where
  instruction : Option String
  ragContext : List RagDoc
deriving Repr

/-- Context read by `DeveloperAgent`. -/
structure DevContext where
  instruction : Option String
  specifications : Option JVal
  ragContext : List RagDoc
deriving Repr

/-- Context read by `TesterAgent`. -/
structure TestContext where
  instruction : Option String
  specifications : Option JVal
  code : TestCode
deriving Repr

/-- Result of `ProductManagerAgent._parse_response` (the `parsing_error`
key is absent exactly when `parsingError` is `none`). -/
structure PMResult where
  agent : String
  role : String
  specifications : JVal
  rawResponse : String
  parsingError : Option String
deriving Repr

/-- Result of `DeveloperAgent._parse_response`. -/
structure DevResult where
  agent : String
  role : String
  code : JVal
  rawResponse : String
  parsingError : Option String
deriving Repr

/-- Result of `TesterAgent._parse_response`. -/
structure TestResult where
  agent : String
  role : String
  review : JVal
  rawResponse : String
  parsingError : Option String
deriving Repr

/-- The `specs_data` placeholder built by the PM parser when no brace span
is found (still inside the `try`, so no diagnostic is attached). -/
def pmFallbackSpecs (response : String) : JVal :=
  .jobj [("analysis", .jstr "Requirements analysis completed"),
    ("specifications", .jarr [.jobj [("component", .jstr "Main Component"),
      ("description", .jstr (pySlice response 200 ++ "...")),
      ("requirements", .jarr [.jstr "Implement core functionality"]),
      ("acceptance_criteria", .jarr [.jstr "Component works as expected"])]]),
    ("technical_considerations", .jarr [.jstr "Follow best practices"]),
    ("success_metrics", .jarr [.jstr "Functionality implemented successfully"])]

/-- The PM payload built in the `except` branch. -/
def pmEmergencySpecs (instruction : Option String) : JVal :=
  .jobj [("analysis", .jstr "Analysis completed with basic specifications"),
    ("specifications", .jarr [.jobj [("component", .jstr "Core Implementation"),
      ("description", .jstr ("Implement functionality based on: " ++ instruction.getD "user requirements")),
      ("requirements", .jarr [.jstr "Follow coding standards", .jstr "Implement required functionality"]),
      ("acceptance_criteria", .jarr [.jstr "Code works correctly", .jstr "Meets user requirements"])]]),
    ("technical_considerations", .jarr [.jstr "Use appropriate design patterns", .jstr "Ensure code maintainability"]),
    ("success_metrics", .jarr [.jstr "Functionality delivered", .jstr "Code quality maintained"])]

/-- `ProductManagerAgent._parse_response`.  The only statement inside the
`try` that can raise is `json.loads`, so the `except` branch is entered
exactly when a brace span exists but fails to parse; its diagnostic string
(`str(e)`) is modelled by a fixed message. -/
def pmParseResponse (response : String) (ctx : PMContext) : PMResult :=
  match braceExtract response with
  | some s =>
      match pyJsonLoads s with
      | some j => ⟨"ProductManager", "Product Manager", j, response, none⟩
      | none => ⟨"ProductManager", "Product Manager", pmEmergencySpecs ctx.instruction,
          response, some "JSONDecodeError"⟩
  | none => ⟨"ProductManager", "Product Manager", pmFallbackSpecs response, response, none⟩

/-- The file list built by the Developer code-block recovery: enumerate all
fenced regions, keep the non-blank bodies, infer each filename. -/
def devFilesFromBlocks : Nat → List (String × String) → List JVal
  | _, [] => []
  | i, (lang, code) :: rest =>
      if pyStrip code ≠ "" then
        .jobj [("path", .jstr (guessFilename code lang i)),
          ("content", .jstr (pyStrip code)),
          ("description", .jstr s!"Generated code file {i + 1}")] ::
          devFilesFromBlocks (i + 1) rest
      else devFilesFromBlocks (i + 1) rest

/-- The `code_data` built on the Developer code-block recovery path. -/
def devCodeBlockData (response : String) : JVal :=
  .jobj [("implementation_plan", .jstr "Code implementation based on specifications"),
    ("files", .jarr (devFilesFromBlocks 0 (findCodeBlocks response))),
    ("dependencies", .jarr []),
    ("setup_commands", .jarr []),
    ("notes", .jstr "Generated from code blocks in response")]

/-- The Developer payload built in the `except` branch. -/
def devEmergencyCode (instruction : Option String) (response : String) : JVal :=
  .jobj [("implementation_plan", .jstr "Basic implementation created"),
    ("files", .jarr [.jobj [("path", .jstr "main.py"),
      ("content", .jstr ("# Implementation for: " ++ instruction.getD "user request" ++ "\n# " ++ pySlice response 500 ++ "...")),
      ("description", .jstr "Basic implementation file")]]),
    ("dependencies", .jarr []),
    ("setup_commands", .jarr []),
    ("notes", .jstr "Fallback implementation due to parsing error")]

/-- `DeveloperAgent._parse_response`.  The code-block recovery runs on the
`else` branch of the brace search, i.e. only when no brace span exists at
all; a brace span that fails `json.loads` raises into the `except`
branch. -/
def devParseResponse (response : String) (ctx : DevContext) : DevResult :=
  match braceExtract response with
  | some s =>
      match pyJsonLoads s with
      | some j => ⟨"Developer", "Developer", j, response, none⟩
      | none => ⟨"Developer", "Developer", devEmergencyCode ctx.instruction response,
          response, some "JSONDecodeError"⟩
  | none => ⟨"Developer", "Developer", devCodeBlockData response, response, none⟩

/-- The test-file list built by the Tester fallback: fenced regions whose
body is non-blank and mentions a test indicator token. -/
def testerFilesFromBlocks : Nat → List (String × String) → List JVal
  | _, [] => []
  | i, (_, code) :: rest =>
      if pyStrip code ≠ "" ∧ (strContains (pyLower code) "test" || strContains (pyLower code) "assert") then
        .jobj [("path", .jstr s!"test_{i}.py"),
          ("content", .jstr (pyStrip code)),
          ("description", .jstr s!"Test file {i + 1} extracted from response")] ::
          testerFilesFromBlocks (i + 1) rest
      else testerFilesFromBlocks (i + 1) rest

/-- The `review_data` built on the Tester fallback path (no brace span). -/
def testerFallbackReview (response : String) : JVal :=
  .jobj [("review_summary", .jstr "Code review completed with basic analysis"),
    ("issues_found", .jarr [.jobj [("severity", .jstr "medium"),
      ("file", .jstr "general"),
      ("issue", .jstr "Unable to parse detailed review"),
      ("suggestion", .jstr "Manual review recommended")]]),
    ("test_files", .jarr (testerFilesFromBlocks 0 (findCodeBlocks response))),
    ("recommendations", .jarr [.jstr "Add more comprehensive testing", .jstr "Review code manually"]),
    ("quality_score", .jstr "7"),
    ("requirements_coverage", .jstr "Partial coverage assessed")]

/-- `TesterAgent._create_basic_test`: the unittest template (the
`code_content` argument is unused in the source as well). -/
def createBasicTest (filePath : String) (_codeContent : String) : String :=
  let moduleName := pyReplace (pyReplace filePath ".py" "") "/" "."
  let className := pyReplace (pyTitle moduleName) "." ""
  "import unittest\nfrom unittest.mock import patch, MagicMock\nimport sys\nimport os\n\n" ++
  "# Add the module path to sys.path if needed\nsys.path.insert(0, os.path.dirname(os.path.abspath(__file__)))\n\n" ++
  "try:\n    import " ++ moduleName ++ "\nexcept ImportError:\n    # Handle import error gracefully\n    pass\n\n\n" ++
  "class Test" ++ className ++ "(unittest.TestCase):\n    \"\"\"Test suite for " ++ filePath ++ "\"\"\"\n    \n" ++
  "    def setUp(self):\n        \"\"\"Set up test fixtures before each test method.\"\"\"\n        pass\n    \n" ++
  "    def tearDown(self):\n        \"\"\"Clean up after each test method.\"\"\"\n        pass\n    \n" ++
  "    def test_basic_functionality(self):\n        \"\"\"Test basic functionality exists.\"\"\"\n" ++
  "        # TODO: Add specific tests based on the code\n        self.assertTrue(True, \"Basic test placeholder\")\n    \n" ++
  "    def test_error_handling(self):\n        \"\"\"Test error handling.\"\"\"\n        # TODO: Add error handling tests\n        pass\n    \n" ++
  "    def test_edge_cases(self):\n        \"\"\"Test edge cases.\"\"\"\n        # TODO: Add edge case tests\n        pass\n\n\n" ++
  "if __name__ == " ++ squote ++ "__main__" ++ squote ++ ":\n    unittest.main()\n"

/-- The basic test files built in the Tester `except` branch from the
first three context files with a Python extension. -/
def testerEmergencyTestFiles (files : List DevFile) : List JVal :=
  (files.take 3).filterMap (fun f =>
    if pyEndsWith f.path ".py" then
      some (.jobj [("path", .jstr ("test_" ++ pyReplace f.path ".py" "" ++ ".py")),
        ("content", .jstr (createBasicTest f.path f.content)),
        ("description", .jstr ("Basic test for " ++ f.path))])
    else none)

/-- The Tester payload built in the `except` branch. -/
def testerEmergencyReview (files : List DevFile) : JVal :=
  .jobj [("review_summary", .jstr "Basic code review performed"),
    ("issues_found", .jarr [.jobj [("severity", .jstr "low"),
      ("file", .jstr "general"),
      ("issue", .jstr "Automated review only"),
      ("suggestion", .jstr "Perform manual code review")]]),
    ("test_files", .jarr (testerEmergencyTestFiles files)),
    ("recommendations", .jarr [.jstr "Add comprehensive testing", .jstr "Review for edge cases"]),
    ("quality_score", .jstr "6"),
    ("requirements_coverage", .jstr "Basic implementation appears functional")]

/-- `TesterAgent._parse_response`. -/
def testerParseResponse (response : String) (ctx : TestContext) : TestResult :=
  match braceExtract response with
  | some s =>
      match pyJsonLoads s with
      | some j => ⟨"Tester", "Quality Assurance Tester", j, response, none⟩
      | none => ⟨"Tester", "Quality Assurance Tester", testerEmergencyReview ctx.code.files,
          response, some "JSONDecodeError"⟩
  | none => ⟨"Tester", "Quality Assurance Tester", testerFallbackReview response, response, none⟩

/-- The passage section of the PM prompt: `enumerate(rag_context[:3])`
rendered with the content sliced to 500 characters (the `[:3]` is applied
by the caller `pmBuildPrompt`). -/
def pmPassages : Nat → List RagDoc → String
  | _, [] => ""
  | i, d :: ds =>
      s!"Context {i + 1}:\n" ++ pySlice d.content 500 ++ "...\n\n" ++ pmPassages (i + 1) ds

/-- `ProductManagerAgent._build_prompt`. -/
def pmBuildPrompt (ctx : PMContext) : String :=
  let base := "User Instruction: " ++ ctx.instruction.getD "" ++ "\n\n"
  let base :=
    if ctx.ragContext.isEmpty then base
    else base ++ "Relevant Context from Knowledge Base:\n" ++ pmPassages 0 (ctx.ragContext.take 3)
  base ++ "Please analyze the user instruction and create detailed technical specifications. Consider the context provided and break down the requirements into specific, implementable components."

/-- The passage section of the Developer prompt: content sliced to 800
characters, source label defaulted to unknown. -/
def devPassages : Nat → List RagDoc → String
  | _, [] => ""
  | i, d :: ds =>
      s!"Context {i + 1} (" ++ d.source.getD "unknown" ++ "):\n" ++
        pySlice d.content 800 ++ "...\n\n" ++ devPassages (i + 1) ds

/-- `DeveloperAgent._build_prompt`. -/
def devBuildPrompt (ctx : DevContext) : String :=
  let base := "Original User Instruction: " ++ ctx.instruction.getD "" ++
    "\n\nProduct Manager Specifications:\n" ++ jsonDumps (ctx.specifications.getD (.jobj [])) ++ "\n\n"
  let base :=
    if ctx.ragContext.isEmpty then base
    else base ++ "Relevant Code Examples and Documentation from Knowledge Base:\n" ++
      devPassages 0 (ctx.ragContext.take 3)
  base ++ "Please implement the code based on the specifications provided. Generate complete, functional files that fulfill all the requirements. Make sure to include proper error handling, documentation, and follow best practices."

/-- A line of 50 equals signs. -/
def eqLine : String := String.mk (List.replicate 50 '=')

/-- The file section of the Tester prompt: each file rendered with its
content sliced to 1500 characters (the `[:5]` is applied by the caller). -/
def testerFileSection : List DevFile → String
  | [] => ""
  | f :: fs =>
      "\nFile: " ++ f.path ++ "\n" ++
      "Description: " ++ f.description.getD "No description" ++ "\n" ++
      "Content:\n" ++ pySlice f.content 1500 ++ "...\n" ++ eqLine ++ "\n" ++
      testerFileSection fs

/-- `TesterAgent._build_prompt`. -/
def testerBuildPrompt (ctx : TestContext) : String :=
  "Original User Instruction: " ++ ctx.instruction.getD "" ++
  "\n\nProduct Manager Specifications:\n" ++ jsonDumps (ctx.specifications.getD (.jobj [])) ++
  "\n\nGenerated Code to Review:\n" ++
  testerFileSection (ctx.code.files.take 5) ++
  "\nDependencies: " ++ pyReprStrList ctx.code.dependencies ++
  "\nSetup Commands: " ++ pyReprStrList ctx.code.setupCommands ++
  "\nImplementation Notes: " ++ ctx.code.notes.getD "None" ++
  "\n\nPlease review this code thoroughly and create comprehensive tests. Focus on:\n1. Code quality and potential bugs\n2. Security considerations\n3. Performance issues\n4. Test coverage for all functionality\n5. Compliance with original requirements"

/-- One filesystem entry seen by the recursive directory walk of
`ingest_documents`: its path, whether it is a regular file, and the text
the extraction oracle (`_extract_content`, failure-tolerant) returns for
it. -/
structure FileEntry where
  path : String
  isFile : Bool
  extracted : String
deriving Repr

/-- The recognized-extension and non-blank-content test applied to each
walked entry. -/
def goodFileB (f : FileEntry) : Bool :=
  f.isFile &&
    (pyLower (pySuffix f.path) == ".txt" || pyLower (pySuffix f.path) == ".md" ||
      pyLower (pySuffix f.path) == ".pdf") &&
    pyStrip f.extracted ≠ ""

/-- One document accumulated by the ingestion scan: its text, metadata and
ordinal id. -/
structure ScanItem where
  doc : String
  source : String
  kind : String
  id : String
deriving Repr

/-- The file-processing loop of `ingest_documents`: the `documents`,
`metadatas`, `ids` lists and `files_processed` grow in lockstep, so they
are modelled as one list (`n` counts the documents accumulated so far and
feeds the ordinal ids). -/
def scanFrom : Nat → List FileEntry → List ScanItem
  | _, [] => []
  | n, f :: fs =>
      if f.isFile &&
          (pyLower (pySuffix f.path) == ".txt" || pyLower (pySuffix f.path) == ".md" ||
            pyLower (pySuffix f.path) == ".pdf") then
        if pyStrip f.extracted ≠ "" then
          ⟨f.extracted, f.path, pyLower (pySuffix f.path), s!"doc_{n + 1}"⟩ :: scanFrom (n + 1) fs
        else scanFrom n fs
      else scanFrom n fs

/-- One stored entry of the vector collection. -/
structure IndexEntry where
  id : String
  text : String
  source : String
  kind : String
  embedding : List Rat
deriving Repr

/-- The embedding loop: one call per document in order, the first failure
propagating; also returns the calls actually made. -/
def embedAll (embed : String → Except String (List Rat)) : List String → Except String (List (List Rat)) × List String
  | [] => (.ok [], [])
  | d :: ds =>
      match embed d with
      | .error e => (.error e, [d])
      | .ok v =>
          match embedAll embed ds with
          | (.error e, calls) => (.error e, d :: calls)
          | (.ok vs, calls) => (.ok (v :: vs), d :: calls)

/-- Zip the scanned documents with their embeddings into collection
entries (the single `collection.add` batch). -/
def mkEntries : List ScanItem → List (List Rat) → List IndexEntry
  | it :: its, e :: es => ⟨it.id, it.doc, it.source, it.kind, e⟩ :: mkEntries its es
  | _, _ => []

/-- Observable outcome of one `ingest_documents` call: the returned value
or propagated error, the collection state after the call, and the
embedding calls that were issued. -/
structure IngestOut where
  result : Except String (String × Nat)
  index : List IndexEntry
  embedCalls : List String
deriving Repr

/-- `RAGSystem.ingest_documents` on an existing directory, the directory
walk given as the list of entries in walk order and the embedding backend
as an oracle.  All extractions are scanned first; with no documents the
call returns early; otherwise every embedding is generated and only then
is the whole batch added to the collection. -/
def ingestDocuments (embed : String → Except String (List Rat))
    (index : List IndexEntry) (files : List FileEntry) : IngestOut :=
  let items := scanFrom 0 files
  if items.isEmpty then
    ⟨.ok ("No documents found to process", 0), index, []⟩
  else
    match embedAll embed (items.map (·.doc)) with
    | (.error e, calls) => ⟨.error e, index, calls⟩
    | (.ok embs, calls) =>
        ⟨.ok (s!"Successfully ingested {items.length} documents", items.length),
          index ++ mkEntries items embs, calls⟩

/-- One formatted search hit (`content`, `metadata`, `distance`). -/
structure QueryHit where
  content : String
  source : String
  kind : String
  distance : Rat
deriving Repr

/-- Ordering of candidate hits by distance; used by the modelled store. -/
def hitLE (a b : IndexEntry × Rat) : Prop := a.2 ≤ b.2

instance : DecidableRel hitLE := fun a b => inferInstanceAs (Decidable (a.2 ≤ b.2))

instance : IsTotal (IndexEntry × Rat) hitLE := ⟨fun a b => le_total a.2 b.2⟩

instance : IsTrans (IndexEntry × Rat) hitLE := ⟨fun _ _ _ h1 h2 => le_trans h1 h2⟩

/-- Modelled from the spec: the vector-store collaborators
`query_nearest(vector, k)` contract (section 6 of the spec) — the stored
entries ordered by ascending distance to the query vector, ties broken by
insertion order (insertion sort with a non-strict comparison is stable),
truncated to the top `k`.  The ChromaDB backend itself is an external
service, not code of this repository. -/
def queryNearest (dist : List Rat → List Rat → Rat) (store : List IndexEntry)
    (qe : List Rat) (k : Nat) : List (IndexEntry × Rat) :=
  (List.insertionSort hitLE (store.map (fun en => (en, dist en.embedding qe)))).take k

/-- `RAGSystem.search_documents`: embed the query, ask the store for the
`n_results` nearest entries, format each as content/metadata/distance. -/
def searchDocuments (dist : List Rat → List Rat → Rat) (embed : String → List Rat)
    (store : List IndexEntry) (query : String) (nResults : Nat) : List QueryHit :=
  let hits := queryNearest dist store (embed query) nResults
  hits.map (fun p => ⟨p.1.text, p.1.source, p.1.kind, p.2⟩)

/-- Resolve `.` and `..` components the way `Path.resolve()` does on a
symlink-free tree: empty and dot components vanish, dot-dot pops (and is a
no-op at the root). -/
def resolveComps (cs : List String) : List String :=
  cs.foldl (fun acc c =>
    if c == "" || c == "." then acc
    else if c == ".." then acc.dropLast
    else acc ++ [c]) []

/-- Components of `workspace / path` before resolution: an absolute right
operand replaces the workspace (pathlib join semantics). -/
def joinedComps (wsComps : List String) (p : String) : List String :=
  if listStartsWith ['/'] p.data then splitSlash p
  else wsComps ++ splitSlash p

/-- `is_safe_path`: resolve the workspace directory and the joined
candidate, then test `full_path.relative_to(workspace_path)`, which
succeeds exactly when the workspace components lead the resolved
components. -/
def isSafePath (workspaceDir : String) (p : String) : Bool :=
  let wsComps := resolveComps (splitSlash workspaceDir)
  let full := resolveComps (joinedComps wsComps p)
  wsComps.isPrefixOf full

example : isSafePath "/home/user/workspace" "../../etc/passwd" = false := by decide
example : isSafePath "/home/user/workspace" "src/main.py" = true := by decide
example : isSafePath "/home/user/workspace" "a/../b.txt" = true := by decide
example : isSafePath "/home/user/workspace" "/etc/passwd" = false := by decide

/-- One batch entry given to the workspace writer. -/
structure WriteReq where
  path : String
  content : String
  source : Option String
  description : Option String
deriving Repr

/-- One record of the written-files result. -/
structure WrittenRec where
  path : String
  bytes : Nat
  source : String
  description : String
deriving Repr

/-- The string form of `Path(workspace_dir) / Path(file_path)` recorded in
the result (unresolved). -/
def joinStr (workspaceDir p : String) : String :=
  if listStartsWith ['/'] p.data then p else workspaceDir ++ "/" ++ p

/-- The body of one iteration of `write_files_to_workspace`: skip unsafe
paths, attempt the write through the filesystem oracle (`none` models a
raised `OSError`, swallowed per file), report the written record. -/
def writeSingle (workspaceDir : String) (fsWrite : String → String → Option Nat)
    (f : WriteReq) : Option WrittenRec :=
  if isSafePath workspaceDir f.path then
    match fsWrite (joinStr workspaceDir f.path) f.content with
    | some n => some ⟨joinStr workspaceDir f.path, n, f.source.getD "unknown", f.description.getD ""⟩
    | none => none
  else none

/-- `write_files_to_workspace`: the per-file loop, accumulating only the
successful writes. -/
def writeFilesToWorkspace (workspaceDir : String) (fsWrite : String → String → Option Nat) :
    List WriteReq → List WrittenRec
  | [] => []
  | f :: fs =>
      match writeSingle workspaceDir fsWrite f with
      | some w => w :: writeFilesToWorkspace workspaceDir fsWrite fs
      | none => writeFilesToWorkspace workspaceDir fsWrite fs

/-- All marker checks that precede the final generic branch of
`_guess_filename` are negative, and the language tag is outside the
extension table. -/
def devMarkerFree (code lang : String) : Prop :=
  strContains (pyLower code) "def main(" = false ∧
  strContains (pyLower code) "if __name__" = false ∧
  strContains (pyLower code) "test" = false ∧
  strContains (pyLower code) "fastapi" = false ∧
  strContains (pyLower code) "app = " = false ∧
  strContains (pyLower code) "import unittest" = false ∧
  strContains (pyLower code) "import pytest" = false ∧
  strContains (pyLower code) "import " = false ∧
  lang ≠ "python" ∧ lang ≠ "bash" ∧ strContains lang "sh" = false ∧
  lang ≠ "javascript" ∧ lang ≠ "js" ∧ lang ≠ "shell"

instance (code lang : String) : Decidable (devMarkerFree code lang) := by
  unfold devMarkerFree; infer_instance

/-- C7: the Developer filename heuristic checks its marker patterns top to
bottom and stops at the first match: any body with an entry-point marker
gets the main-program filename; a body that is exactly a test-framework
module import gets a test filename; a body with no recognized marker and an
unrecognized language tag gets the generic plain-text filename. -/
theorem c7_guess_filename :
    (∀ (code lang : String) (i : Nat),
      (strContains (pyLower code) "def main(" = true ∨ strContains (pyLower code) "if __name__" = true) →
        guessFilename code lang i = "main.py") ∧
    (∀ (lang : String) (i : Nat),
      guessFilename "import unittest" lang i = s!"test_{i}.py" ∧
      guessFilename "import pytest" lang i = s!"test_{i}.py") ∧
    (∀ (code lang : String) (i : Nat), devMarkerFree code lang →
      guessFilename code lang i = s!"file_{i}.txt") := by
  refine ⟨?_, ?_, ?_⟩
  · intro code lang i h
    unfold guessFilename
    rcases h with h | h <;> simp [h]
  · intro lang i
    constructor <;> rfl
  · intro code lang i h
    obtain ⟨h1, h2, h3, h4, h5, h6, h7, h8, h9, h10, h11, h12, h13, h14⟩ := h
    have htos : ∀ s : String, toString s = s := fun _ => rfl
    have hcat : ("." : String) ++ ("txt" ++ "") = ".txt" := rfl
    simp [guessFilename, extTable, h1, h2, h3, h4, h5, h6, h7, h8, h9, h10, h11, h12, h13, h14,
      String.append_assoc, htos, hcat]

/-- Closed instance of `c7_guess_filename` discharging its hypotheses at
concrete inputs. -/
theorem c7_guess_filename_witness :
    guessFilename "if __name__ == \"__main__\":\n    run()" "python" 4 = "main.py" ∧
    guessFilename "import unittest" "" 1 = "test_1.py" ∧
    guessFilename "puts 1" "ruby" 0 = "file_0.txt" :=
  ⟨c7_guess_filename.1 "if __name__ == \"__main__\":\n    run()" "python" 4 (Or.inr (by decide)),
   (c7_guess_filename.2.1 "" 1).1,
   c7_guess_filename.2.2 "puts 1" "ruby" 0 (by decide)⟩

/-- C8: the workspace writer is best-effort per file — the result is
exactly the per-entry successful subset, an unsafe path always yields no
written record, and the canonical traversal path `../../etc/passwd` is
rejected by the sandbox check. -/
theorem c8_workspace_write :
    (∀ (workspaceDir : String) (fsWrite : String → String → Option Nat) (files : List WriteReq),
      writeFilesToWorkspace workspaceDir fsWrite files = files.filterMap (writeSingle workspaceDir fsWrite)) ∧
    (∀ (workspaceDir : String) (fsWrite : String → String → Option Nat) (f : WriteReq),
      isSafePath workspaceDir f.path = false → writeSingle workspaceDir fsWrite f = none) ∧
    isSafePath "/home/user/workspace" "../../etc/passwd" = false := by
  refine ⟨?_, ?_, by decide⟩
  · intro workspaceDir fsWrite files
    induction files with
    | nil => rfl
    | cons f fs ih =>
        cases h : writeSingle workspaceDir fsWrite f <;>
          simp [writeFilesToWorkspace, List.filterMap_cons, h, ih]
  · intro workspaceDir fsWrite f h
    simp [writeSingle, h]

/-- Closed instance of `c8_workspace_write` discharging its hypothesis at
the traversal path from the spec scenario. -/
theorem c8_workspace_write_witness :
    writeSingle "/home/user/workspace" (fun _ _ => some 1)
      ⟨"../../etc/passwd", "content", none, none⟩ = none :=
  c8_workspace_write.2.1 "/home/user/workspace" (fun _ _ => some 1)
    ⟨"../../etc/passwd", "content", none, none⟩ (by decide)

/-- The document/metadata/count streams of the scan agree with a filter
over the walked entries. -/
theorem scanFrom_proj (files : List FileEntry) : ∀ (n : Nat),
    (scanFrom n files).map (fun it => (it.doc, it.source, it.kind)) =
      (files.filter goodFileB).map (fun f => (f.extracted, f.path, pyLower (pySuffix f.path))) := by
  induction files with
  | nil => intro n; rfl
  | cons f fs ih =>
      intro n
      by_cases hA : (f.isFile &&
          (pyLower (pySuffix f.path) == ".txt" || pyLower (pySuffix f.path) == ".md" ||
            pyLower (pySuffix f.path) == ".pdf")) = true
      · by_cases hB : pyStrip f.extracted ≠ ""
        · simp [scanFrom, hA, hB, goodFileB, List.filter_cons, ih]
        · simp [scanFrom, hA, hB, goodFileB, List.filter_cons, ih]
      · simp [scanFrom, hA, goodFileB, List.filter_cons, ih]

/-- The number of accumulated documents equals the number of kept files. -/
theorem scanFrom_length (files : List FileEntry) (n : Nat) :
    (scanFrom n files).length = (files.filter goodFileB).length := by
  have h := congrArg List.length (scanFrom_proj files n)
  simpa using h

/-- The scan is empty exactly when no walked entry is kept. -/
theorem scanFrom_eq_nil_iff (files : List FileEntry) (n : Nat) :
    scanFrom n files = [] ↔ files.filter goodFileB = [] := by
  constructor
  · intro h
    have := scanFrom_length files n
    rw [h] at this
    exact List.eq_nil_of_length_eq_zero this.symm
  · intro h
    have := scanFrom_length files n
    rw [h] at this
    exact List.eq_nil_of_length_eq_zero this

/-- C10: when no recognized file yields non-blank extracted text, the call
returns early with `files_processed = 0`, issues no embedding call and
leaves the collection untouched. -/
theorem c10_ingest_no_documents (embed : String → Except String (List Rat))
    (idx : List IndexEntry) (files : List FileEntry)
    (h : files.filter goodFileB = []) :
    ingestDocuments embed idx files =
      ⟨.ok ("No documents found to process", 0), idx, []⟩ := by
  have hs : scanFrom 0 files = [] := (scanFrom_eq_nil_iff files 0).mpr h
  simp [ingestDocuments, hs]

/-- Closed instance of `c10_ingest_no_documents`: a whitespace-only text
file, an unrecognized binary and a directory produce no documents, no
embedding calls (the oracle here would fail if consulted) and no index
change. -/
theorem c10_ingest_no_documents_witness :
    ingestDocuments (fun _ => .error "backend unavailable")
      [⟨"doc_0", "old", "old.txt", ".txt", []⟩]
      [⟨"notes.txt", true, " \n "⟩, ⟨"img.png", true, "data"⟩, ⟨"sub", false, ""⟩] =
      ⟨.ok ("No documents found to process", 0), [⟨"doc_0", "old", "old.txt", ".txt", []⟩], []⟩ :=
  c10_ingest_no_documents (fun _ => .error "backend unavailable")
    [⟨"doc_0", "old", "old.txt", ".txt", []⟩]
    [⟨"notes.txt", true, " \n "⟩, ⟨"img.png", true, "data"⟩, ⟨"sub", false, ""⟩] (by rfl)

/-- The `files_processed` count of an ingest result (zero on error). -/
def okCount (r : Except String (String × Nat)) : Nat :=
  match r with
  | .ok p => p.2
  | .error _ => 0

/-- With a never-failing backend the embedding loop embeds every document
in order. -/
theorem embedAll_ok (emb : String → List Rat) : ∀ (ds : List String),
    embedAll (fun d => .ok (emb d)) ds = (.ok (ds.map emb), ds) := by
  intro ds
  induction ds with
  | nil => rfl
  | cons d ds ih => simp [embedAll, ih]

/-- Projection of the batch-add entries back to the scanned documents. -/
theorem mkEntries_proj : ∀ (its : List ScanItem) (es : List (List Rat)),
    its.length = es.length →
    (mkEntries its es).map (fun en => (en.text, en.source, en.kind)) =
      its.map (fun it => (it.doc, it.source, it.kind)) := by
  intro its
  induction its with
  | nil => intro es _; cases es <;> rfl
  | cons it its ih =>
      intro es h
      cases es with
      | nil => simp at h
      | cons e es =>
          simp only [List.length_cons, Nat.add_right_cancel_iff] at h
          simp [mkEntries, ih es h]

/-- C5: over an existing directory, ingestion stores exactly one document
per walked regular file with a recognized extension and non-blank
extracted text — its metadata source is the file's path and its type the
lower-cased extension — while blank or unrecognized files are skipped,
excluded from `files_processed`, and never indexed. -/
theorem c5_ingest_one_document_per_file (files : List FileEntry)
    (emb : String → List Rat) (idx : List IndexEntry) :
    (scanFrom 0 files).map (fun it => (it.doc, it.source, it.kind)) =
      (files.filter goodFileB).map (fun f => (f.extracted, f.path, pyLower (pySuffix f.path))) ∧
    (scanFrom 0 files).length = (files.filter goodFileB).length ∧
    okCount (ingestDocuments (fun d => .ok (emb d)) idx files).result =
      (files.filter goodFileB).length ∧
    (ingestDocuments (fun d => .ok (emb d)) idx files).index.map (fun en => (en.text, en.source, en.kind)) =
      idx.map (fun en => (en.text, en.source, en.kind)) ++
        (files.filter goodFileB).map (fun f => (f.extracted, f.path, pyLower (pySuffix f.path))) := by
  refine ⟨scanFrom_proj files 0, scanFrom_length files 0, ?_, ?_⟩
  · cases hs : scanFrom 0 files with
    | nil =>
        have h0 := scanFrom_length files 0
        rw [hs] at h0
        simp [ingestDocuments, hs, okCount, ← h0]
    | cons it its =>
        rw [← scanFrom_length files 0, hs]
        simp [ingestDocuments, hs, embedAll_ok, okCount]
  · cases hs : scanFrom 0 files with
    | nil =>
        have h0 := scanFrom_proj files 0
        rw [hs] at h0
        simp [ingestDocuments, hs, ← h0]
    | cons it its =>
        have hproj := scanFrom_proj files 0
        rw [hs] at hproj
        have hlen : (it :: its).length = (((it :: its).map (fun s => s.doc)).map emb).length := by
          simp
        have hm := mkEntries_proj (it :: its) (((it :: its).map (fun s => s.doc)).map emb) hlen
        simp only [ingestDocuments, hs, List.isEmpty_cons, Bool.false_eq_true, if_false, embedAll_ok]
        rw [List.map_append, hm, hproj]

/-- C2 (amended): all embeddings are generated after the extraction pass
and the documents are added to the collection in one batch only after
every embedding call has succeeded; an embedding failure propagates the
error and leaves the collection exactly as before the call — no document
from the call has been upserted. -/
theorem c2_ingest_batched_upsert (embed : String → Except String (List Rat))
    (idx : List IndexEntry) (files : List FileEntry) :
    (∀ e, (ingestDocuments embed idx files).result = .error e →
      (ingestDocuments embed idx files).index = idx) ∧
    (∀ m n, (ingestDocuments embed idx files).result = .ok (m, n) →
      ∃ embs, (ingestDocuments embed idx files).index = idx ++ mkEntries (scanFrom 0 files) embs) := by
  constructor
  · intro e he
    by_cases hs : (scanFrom 0 files).isEmpty
    · simp [ingestDocuments, hs]
    · rcases hr : embedAll embed ((scanFrom 0 files).map (fun s => s.doc)) with ⟨res, calls⟩
      cases res with
      | error e2 => simp [ingestDocuments, hs, hr]
      | ok vs =>
          exfalso
          simp [ingestDocuments, hs, hr] at he
  · intro m n hok
    by_cases hs : (scanFrom 0 files).isEmpty
    · refine ⟨[], ?_⟩
      have : scanFrom 0 files = [] := by
        cases h : scanFrom 0 files with
        | nil => rfl
        | cons a b => rw [h] at hs; simp [List.isEmpty] at hs
      simp [ingestDocuments, hs, this, mkEntries]
    · rcases hr : embedAll embed ((scanFrom 0 files).map (fun s => s.doc)) with ⟨res, calls⟩
      cases res with
      | error e2 =>
          exfalso
          simp [ingestDocuments, hs, hr] at hok
      | ok vs =>
          exact ⟨vs, by simp [ingestDocuments, hs, hr]⟩

/-- The two-file directory and the backend that embeds the first document
and fails on the second, exercising the partial-failure scenario of C2. -/
def cexFiles : List FileEntry := [⟨"a.txt", true, "alpha"⟩, ⟨"b.txt", true, "beta"⟩]

/-- Embedding oracle failing on the second document of `cexFiles`. -/
def badEmbed : String → Except String (List Rat) :=
  fun d => if d == "alpha" then .ok [1] else .error "embedding backend failed"

/-- Counterexample to C2 as stated: the embedding of the first document
succeeds, the embedding of the second fails, the error propagates — yet
the collection is unchanged (still empty), so the earlier document was
*not* already upserted. -/
theorem c2_counterexample :
    (ingestDocuments badEmbed [] cexFiles).result = .error "embedding backend failed" ∧
    (ingestDocuments badEmbed [] cexFiles).embedCalls = ["alpha", "beta"] ∧
    (ingestDocuments badEmbed [] cexFiles).index = [] :=
  ⟨by rfl, by rfl, by rfl⟩

/-- Closed instance of `c2_ingest_batched_upsert` discharging both
hypotheses at concrete backends. -/
theorem c2_ingest_batched_upsert_witness :
    (ingestDocuments badEmbed [] cexFiles).index = [] ∧
    ∃ embs, (ingestDocuments (fun _ => .ok ([] : List Rat)) [] cexFiles).index =
      [] ++ mkEntries (scanFrom 0 cexFiles) embs :=
  ⟨(c2_ingest_batched_upsert badEmbed [] cexFiles).1 "embedding backend failed" (by rfl),
   (c2_ingest_batched_upsert (fun _ => .ok ([] : List Rat)) [] cexFiles).2
     "Successfully ingested 2 documents" 2 (by rfl)⟩

/-- C6: `search_documents` returns at most `n_results` passages sorted by
non-decreasing distance, and querying an empty collection yields the empty
list rather than an error. -/
theorem c6_search_documents :
    (∀ (dist : List Rat → List Rat → Rat) (embed : String → List Rat)
        (store : List IndexEntry) (q : String) (k : Nat),
      (searchDocuments dist embed store q k).length ≤ k ∧
      List.Pairwise (fun a b => a.distance ≤ b.distance) (searchDocuments dist embed store q k)) ∧
    (∀ (dist : List Rat → List Rat → Rat) (embed : String → List Rat) (q : String) (k : Nat),
      searchDocuments dist embed [] q k = []) := by
  constructor
  · intro dist embed store q k
    constructor
    · simp only [searchDocuments, queryNearest, List.length_map]
      exact List.length_take_le k _
    · have hsorted2 : List.Sorted hitLE
          (List.insertionSort hitLE (store.map (fun en => (en, dist en.embedding (embed q))))) :=
        List.sorted_insertionSort hitLE _
      have htake : List.Pairwise hitLE
          ((List.insertionSort hitLE (store.map (fun en => (en, dist en.embedding (embed q))))).take k) :=
        List.Pairwise.sublist (List.take_sublist k _) hsorted2
      exact List.pairwise_map.mpr (htake.imp (fun h => h))
  · intro dist embed q k
    simp [searchDocuments, queryNearest]

/-- The strict-extraction step fails to produce parsed JSON: either no
brace span exists, or the span does not parse. -/
def strictFailsB (r : String) : Bool :=
  match braceExtract r with
  | none => true
  | some s => (pyJsonLoads s).isNone

/-- A brace span exists but its content fails `json.loads` (the condition
under which the parsers raise into their `except` branch). -/
def jsonFailB (r : String) : Bool :=
  match braceExtract r with
  | none => false
  | some s => (pyJsonLoads s).isNone

/-- The no-brace PM placeholder is schema-valid. -/
theorem pmFallbackSpecs_valid (r : String) : pmSchemaValid (pmFallbackSpecs r) = true := rfl

/-- The exception-branch PM placeholder is schema-valid. -/
theorem pmEmergencySpecs_valid (i : Option String) : pmSchemaValid (pmEmergencySpecs i) = true := rfl

/-- Every artifact produced by the Developer code-block recovery has the
path/content/description shape. -/
theorem devFilesFromBlocks_valid : ∀ (i : Nat) (bs : List (String × String)),
    (devFilesFromBlocks i bs).all fileItemValid = true := by
  intro i bs
  induction bs generalizing i with
  | nil => rfl
  | cons b rest ih =>
      by_cases h : pyStrip b.2 ≠ ""
      · simp [devFilesFromBlocks, h, ih, fileItemValid, jfieldIs, jlookup, isStr]
      · simp [devFilesFromBlocks, h, ih]

/-- The Developer code-block payload is schema-valid. -/
theorem devCodeBlockData_valid (r : String) : devSchemaValid (devCodeBlockData r) = true := by
  have h := devFilesFromBlocks_valid 0 (findCodeBlocks r)
  rw [show devSchemaValid (devCodeBlockData r) =
      ((((devFilesFromBlocks 0 (findCodeBlocks r)).all fileItemValid && true) && true) && true)
    from rfl, h]
  rfl

/-- The exception-branch Developer placeholder is schema-valid. -/
theorem devEmergencyCode_valid (i : Option String) (r : String) :
    devSchemaValid (devEmergencyCode i r) = true := rfl

/-- Every test file kept by the Tester fallback has the artifact shape. -/
theorem testerFilesFromBlocks_valid : ∀ (i : Nat) (bs : List (String × String)),
    (testerFilesFromBlocks i bs).all fileItemValid = true := by
  intro i bs
  induction bs generalizing i with
  | nil => rfl
  | cons b rest ih =>
      unfold testerFilesFromBlocks
      split
      · simp [fileItemValid, jfieldIs, jlookup, isStr, ih]
      · exact ih (i + 1)

/-- The Tester fallback payload is schema-valid. -/
theorem testerFallbackReview_valid (r : String) : testSchemaValid (testerFallbackReview r) = true := by
  have h := testerFilesFromBlocks_valid 0 (findCodeBlocks r)
  rw [show testSchemaValid (testerFallbackReview r) =
      (((((testerFilesFromBlocks 0 (findCodeBlocks r)).all fileItemValid && true) && true) && true))
    from rfl, h]
  rfl

/-- Every basic test synthesized in the Tester `except` branch has the
artifact shape. -/
theorem testerEmergencyTestFiles_valid (files : List DevFile) :
    (testerEmergencyTestFiles files).all fileItemValid = true := by
  unfold testerEmergencyTestFiles
  induction files.take 3 with
  | nil => rfl
  | cons f rest ih =>
      by_cases h : pyEndsWith f.path ".py" = true
      · simp [List.filterMap_cons, h, fileItemValid, jfieldIs, jlookup, isStr, ih]
      · simp [List.filterMap_cons, h, ih]

/-- The exception-branch Tester payload is schema-valid. -/
theorem testerEmergencyReview_valid (files : List DevFile) :
    testSchemaValid (testerEmergencyReview files) = true := by
  have h := testerEmergencyTestFiles_valid files
  rw [show testSchemaValid (testerEmergencyReview files) =
      (((((testerEmergencyTestFiles files).all fileItemValid && true) && true) && true))
    from rfl, h]
  rfl

/-- Counterexample to C1 as stated: on the well-formed response consisting
of an empty JSON object, strict extraction succeeds, the parser returns it
verbatim without error — and the payload is not a structurally valid
instance of the PM specifications schema. -/
theorem c1_counterexample :
    (pmParseResponse "\x7b\x7d" ⟨none, []⟩).parsingError = none ∧
    (pmParseResponse "\x7b\x7d" ⟨none, []⟩).specifications = JVal.jobj [] ∧
    pmSchemaValid (pmParseResponse "\x7b\x7d" ⟨none, []⟩).specifications = false :=
  ⟨by rfl, by rfl, by rfl⟩

/-- C1 (amended): each parser is a total function of the raw response
(never raises), and whenever the strict-extraction step does not yield
parsed JSON — no brace span, or the span fails `json.loads` — the returned
payload is a structurally valid instance of the role's minimal schema.
(When strict extraction succeeds the payload is the extracted JSON object
verbatim, which need not conform to the role's schema.) -/
theorem c1_parse_total_schema (response : String) (pmc : PMContext) (dvc : DevContext)
    (ttc : TestContext) (h : strictFailsB response = true) :
    pmSchemaValid (pmParseResponse response pmc).specifications = true ∧
    devSchemaValid (devParseResponse response dvc).code = true ∧
    testSchemaValid (testerParseResponse response ttc).review = true := by
  simp only [strictFailsB] at h
  cases hb : braceExtract response with
  | none =>
      simp [pmParseResponse, devParseResponse, testerParseResponse, hb,
        pmFallbackSpecs_valid, devCodeBlockData_valid, testerFallbackReview_valid]
  | some s =>
      rw [hb] at h
      have hj : pyJsonLoads s = none := Option.isNone_iff_eq_none.mp h
      simp [pmParseResponse, devParseResponse, testerParseResponse, hb, hj,
        pmEmergencySpecs_valid, devEmergencyCode_valid, testerEmergencyReview_valid]

/-- Closed instance of `c1_parse_total_schema` at a pure-prose response. -/
theorem c1_parse_total_schema_witness :
    pmSchemaValid (pmParseResponse "plain prose, no braces or fences" ⟨none, []⟩).specifications = true ∧
    devSchemaValid (devParseResponse "plain prose, no braces or fences" ⟨none, none, []⟩).code = true ∧
    testSchemaValid (testerParseResponse "plain prose, no braces or fences"
      ⟨none, none, ⟨[⟨"main.py", "x = 1", none⟩], [], [], none⟩⟩).review = true :=
  c1_parse_total_schema "plain prose, no braces or fences" ⟨none, []⟩ ⟨none, none, []⟩
    ⟨none, none, ⟨[⟨"main.py", "x = 1", none⟩], [], [], none⟩⟩ (by rfl)

/-- The response with an invalid brace span followed by a well-formed
fenced code block, exercising the C3 scenario. -/
def c3Response : String := "\x7bbad\x7d\n```python\nx = 1\n```"

/-- Counterexample to C3 as stated: the response has a brace span that is
not valid JSON and a non-empty fenced code region, yet the Developer
parser returns the terminal placeholder with a parse error instead of a
FileArtifact built from the fenced body. -/
theorem c3_counterexample :
    braceExtract c3Response = some "\x7bbad\x7d" ∧
    findCodeBlocks c3Response = [("python", "x = 1")] ∧
    (devParseResponse c3Response ⟨none, none, []⟩).parsingError.isSome = true ∧
    (devParseResponse c3Response ⟨none, none, []⟩).code = devEmergencyCode none c3Response :=
  ⟨by rfl, by rfl, by rfl, by rfl⟩

/-- C3 (amended): the Developer code-block recovery runs exactly when no
brace span is found at all; when a brace span exists but its content is
not valid JSON, the raised decode error sends the parser directly to the
terminal placeholder fallback. -/
theorem c3_code_block_recovery (response : String) (dvc : DevContext) :
    (braceExtract response = none →
      devParseResponse response dvc =
        ⟨"Developer", "Developer", devCodeBlockData response, response, none⟩) ∧
    (∀ s, braceExtract response = some s → pyJsonLoads s = none →
      devParseResponse response dvc =
        ⟨"Developer", "Developer", devEmergencyCode dvc.instruction response, response,
          some "JSONDecodeError"⟩) := by
  constructor
  · intro hb
    simp [devParseResponse, hb]
  · intro s hb hj
    simp [devParseResponse, hb, hj]

/-- Closed instance of `c3_code_block_recovery` discharging both
hypotheses at concrete responses. -/
theorem c3_code_block_recovery_witness :
    devParseResponse "```python\nx = 1\n```" ⟨none, none, []⟩ =
      ⟨"Developer", "Developer", devCodeBlockData "```python\nx = 1\n```",
        "```python\nx = 1\n```", none⟩ ∧
    devParseResponse c3Response ⟨none, none, []⟩ =
      ⟨"Developer", "Developer", devEmergencyCode none c3Response, c3Response,
        some "JSONDecodeError"⟩ :=
  ⟨(c3_code_block_recovery "```python\nx = 1\n```" ⟨none, none, []⟩).1 (by rfl),
   (c3_code_block_recovery c3Response ⟨none, none, []⟩).2 "\x7bbad\x7d" (by rfl) (by rfl)⟩

/-- Counterexample to C4 as stated: on a brace-free response the PM parser
returns the synthesized minimal placeholder, yet no diagnostic is
attached. -/
theorem c4_counterexample :
    (pmParseResponse "hello" ⟨none, []⟩).specifications = pmFallbackSpecs "hello" ∧
    (pmParseResponse "hello" ⟨none, []⟩).parsingError = none :=
  ⟨by rfl, by rfl⟩

/-- C4 (amended): for each agent, the parse-error diagnostic is attached
if and only if a brace span was found whose content failed to parse as
JSON (the exception path); the placeholder structures synthesized when no
brace span exists carry no diagnostic. -/
theorem c4_parse_error_iff (response : String) (pmc : PMContext) (dvc : DevContext)
    (ttc : TestContext) :
    (pmParseResponse response pmc).parsingError.isSome = jsonFailB response ∧
    (devParseResponse response dvc).parsingError.isSome = jsonFailB response ∧
    (testerParseResponse response ttc).parsingError.isSome = jsonFailB response := by
  cases hb : braceExtract response with
  | none =>
      simp [pmParseResponse, devParseResponse, testerParseResponse, jsonFailB, hb]
  | some s =>
      cases hj : pyJsonLoads s with
      | none =>
          simp [pmParseResponse, devParseResponse, testerParseResponse, jsonFailB, hb, hj]
      | some j =>
          simp [pmParseResponse, devParseResponse, testerParseResponse, jsonFailB, hb, hj]

/-- Truncate a retrieved passage to an `n`-character content budget. -/
def truncDoc (n : Nat) (d : RagDoc) : RagDoc := { d with content := pySlice d.content n }

/-- Truncate a generated file to an `n`-character content budget. -/
def truncFile (n : Nat) (f : DevFile) : DevFile := { f with content := pySlice f.content n }

/-- Slicing is idempotent. -/
theorem pySlice_idem (s : String) (n : Nat) : pySlice (pySlice s n) n = pySlice s n := by
  simp [pySlice, List.take_take]

/-- Taking three of an already three-truncated mapped list is a no-op. -/
theorem take_map_take (l : List RagDoc) (n k : Nat) :
    ((l.take k).map (truncDoc n)).take k = (l.take k).map (truncDoc n) := by
  apply List.take_of_length_le
  rw [List.length_map]
  exact List.length_take_le k l

/-- Likewise for file lists. -/
theorem take_map_take_files (l : List DevFile) (n k : Nat) :
    ((l.take k).map (truncFile n)).take k = (l.take k).map (truncFile n) := by
  apply List.take_of_length_le
  rw [List.length_map]
  exact List.length_take_le k l

/-- The PM passage section only reads the 500-character slice. -/
theorem pmPassages_trunc : ∀ (i : Nat) (l : List RagDoc),
    pmPassages i (l.map (truncDoc 500)) = pmPassages i l := by
  intro i l
  induction l generalizing i with
  | nil => rfl
  | cons d ds ih => simp [pmPassages, truncDoc, pySlice_idem, ih]

/-- The Developer passage section only reads the 800-character slice. -/
theorem devPassages_trunc : ∀ (i : Nat) (l : List RagDoc),
    devPassages i (l.map (truncDoc 800)) = devPassages i l := by
  intro i l
  induction l generalizing i with
  | nil => rfl
  | cons d ds ih => simp [devPassages, truncDoc, pySlice_idem, ih]

/-- The Tester file section only reads the 1500-character slice. -/
theorem testerFileSection_trunc : ∀ (l : List DevFile),
    testerFileSection (l.map (truncFile 1500)) = testerFileSection l := by
  intro l
  induction l with
  | nil => rfl
  | cons f fs ih => simp [testerFileSection, truncFile, pySlice_idem, ih]

/-- C9: each prompt builder bounds its prompt deterministically — the PM
prompt depends only on the first 3 retrieved passages truncated to 500
characters, the Developer prompt only on the first 3 passages truncated to
800 characters, and the Tester prompt only on the first 5 generated files
with content truncated to 1500 characters. -/
theorem c9_prompt_budgets (pmc : PMContext) (dvc : DevContext) (ttc : TestContext) :
    pmBuildPrompt pmc =
      pmBuildPrompt ⟨pmc.instruction, (pmc.ragContext.take 3).map (truncDoc 500)⟩ ∧
    devBuildPrompt dvc =
      devBuildPrompt ⟨dvc.instruction, dvc.specifications, (dvc.ragContext.take 3).map (truncDoc 800)⟩ ∧
    testerBuildPrompt ttc =
      testerBuildPrompt ⟨ttc.instruction, ttc.specifications,
        ⟨(ttc.code.files.take 5).map (truncFile 1500), ttc.code.dependencies,
          ttc.code.setupCommands, ttc.code.notes⟩⟩ := by
  refine ⟨?_, ?_, ?_⟩
  · obtain ⟨inst, rag⟩ := pmc
    cases rag with
    | nil => rfl
    | cons d ds =>
        have h2 := pmPassages_trunc 0 (d :: List.take 2 ds)
        simp only [List.map_cons, List.map_take] at h2
        simp [pmBuildPrompt, List.take_succ_cons, List.take_take, h2]
  · obtain ⟨inst, specs, rag⟩ := dvc
    cases rag with
    | nil => rfl
    | cons d ds =>
        have h2 := devPassages_trunc 0 (d :: List.take 2 ds)
        simp only [List.map_cons, List.map_take] at h2
        simp [devBuildPrompt, List.take_succ_cons, List.take_take, h2]
  · obtain ⟨inst, specs, ⟨fs, deps, cmds, notes⟩⟩ := ttc
    simp only [testerBuildPrompt, take_map_take_files, testerFileSection_trunc]
